import Mathlib

/-!
lightdm-jbr-greeter: window composition and stylesheet generation (`src/ui.c`)

A shallow embedding of the functions of `ui.c` that build the background
windows, place the main window, create the layout grid and generate the
stylesheet, followed by theorems about them.

Conventions of the embedding.

* GTK/GDK objects live in an explicit toolkit state `Gtk`; a C pointer to a
  window or grid is the index of the object in that state, a `NULL` pointer is
  `none`.
* The answers of the display subsystem (`gdk_display_get_n_monitors`,
  `gdk_display_get_monitor`, `gdk_display_get_primary_monitor`,
  `gdk_monitor_get_geometry`, `gdk_monitor_is_primary`) are fields of the
  records `GdkDisplay` and `GdkMonitor`, so every theorem quantifies over all
  answers the display can give.
* `gint` values are pixel coordinates and are modelled by `Int`; C signed
  overflow is undefined behaviour, so the model is exact on every execution on
  which the C arithmetic is defined.  C `/` on `int` is `Int.tdiv`.
* C strings are `String`s; the text written by `asprintf` is a `List Char`.
  In string literals the characters `{` and `}` of the stylesheet are written
  with their escapes `\x7b` and `\x7d`.
* `create_and_attach_password_field`, `create_and_attach_feedback`,
  `hide_mouse_cursor` and `move_mouse_to_background_window` are not embedded;
  no statement below concerns them.
-/

namespace JbrGreeter

/-! ## Display subsystem -/

/-- A `GdkRectangle`: origin and size in pixels. -/
structure GdkRectangle where
  x : Int
  y : Int
  width : Int
  height : Int
deriving DecidableEq

/-- A monitor as seen through the two queries `ui.c` makes of it:
`gdk_monitor_get_geometry` and `gdk_monitor_is_primary`. -/
structure GdkMonitor where
  geometry : GdkRectangle
  is_primary : Bool
deriving DecidableEq

/-- The default display as seen through the queries `ui.c` makes of it.
`n_monitors` is the reported count, `get_monitor m` the outcome of the lookup
at index `m` (`none` is `NULL`), `primary_monitor` the outcome of
`gdk_display_get_primary_monitor` (`none` is `NULL`). -/
structure GdkDisplay where
  n_monitors : Nat
  get_monitor : Nat → Option GdkMonitor
  primary_monitor : Option GdkMonitor

def gdk_display_get_n_monitors (display : GdkDisplay) : Nat :=
  display.n_monitors

def gdk_display_get_monitor (display : GdkDisplay) (m : Nat) : Option GdkMonitor :=
  display.get_monitor m

def gdk_display_get_primary_monitor (display : GdkDisplay) : Option GdkMonitor :=
  display.primary_monitor

def gdk_monitor_is_primary (monitor : GdkMonitor) : Bool :=
  monitor.is_primary

/-- The call `gdk_monitor_get_geometry(monitor, &geometry)`: writes the
monitor's rectangle into the destination.  For a `NULL` monitor GDK's argument
check returns without writing, so the destination keeps its previous
contents. -/
def gdk_monitor_get_geometry (monitor : Option GdkMonitor) (geometry : GdkRectangle) :
    GdkRectangle :=
  match monitor with
  | some m => m.geometry
  | none => geometry

/-! ## Configuration -/

/-- Modelled from the spec: the `Config` record, whose declaration is in a
header that is not among the sources.  The fields are the ones the embedded
functions read, with the types their uses in `ui.c` fix: text fields are
printed with `%s`, colour fields are passed to `gdk_rgba_to_string`, the two
flags are used as conditions, `layout_spacing` is a border width.  `RGBA` is
the type of a colour value (`GdkRGBA`, four floating-point channels), which
`ui.c` never inspects. -/
structure Config (RGBA : Type) where
  font : String
  font_size : String
  font_weight : String
  font_style : String
  text_color : RGBA
  error_color : RGBA
  background_color : RGBA
  background_image : String
  window_color : RGBA
  border_width : String
  border_color : RGBA
  password_color : RGBA
  password_background_color : RGBA
  password_border_width : String
  password_border_color : RGBA
  show_input_cursor : Bool
  show_image_on_all_monitors : Bool
  layout_spacing : Nat

/-! ## Toolkit state -/

inductive GdkWindowTypeHint where
  | NORMAL
  | DESKTOP
deriving DecidableEq

/-- The callbacks `ui.c` connects to signals. -/
inductive Callback where
  | hide_mouse_cursor
  | gtk_main_quit
  | place_main_window
deriving DecidableEq

/-- The properties of a top-level window that `ui.c` reads or writes.
`size` is what `gtk_window_get_size` reports (the measured size), `child` the
handle of the grid the window contains. -/
structure GtkWindow where
  type_hint : GdkWindowTypeHint
  keep_below : Bool
  name : String
  size_request : Int × Int
  position : Int × Int
  resizable : Bool
  style_classes : List String
  signal_handlers : List (String × Callback)
  border_width : Nat
  child : Option Nat
  size : Int × Int
deriving DecidableEq

structure GtkGrid where
  column_spacing : Nat
  row_spacing : Nat
deriving DecidableEq

/-- A style provider and the text loaded into it, if any. -/
structure GtkCssProvider where
  data : Option (List Char)
deriving DecidableEq

/-- The toolkit state: the windows and grids created so far, in creation
order, and the style providers installed on the default screen with their
priorities, in installation order. -/
structure Gtk where
  windows : List GtkWindow
  grids : List GtkGrid
  screen_providers : List (GtkCssProvider × Nat)
deriving DecidableEq

/-- The `UI` record.  `background_windows` is the allocated array: `none` is a
slot that was never written. -/
structure UI where
  background_windows : List (Option Nat)
  monitor_count : Nat
  main_window : Option Nat
  layout_container : Option Nat
  password_label : Option Nat
  password_input : Option Nat
  feedback_label : Option Nat
deriving DecidableEq

/-- A window as `gtk_window_new(GTK_WINDOW_TOPLEVEL)` returns it. -/
def fresh_window : GtkWindow :=
  { type_hint := GdkWindowTypeHint.NORMAL
    keep_below := false
    name := ""
    size_request := (-1, -1)
    position := (0, 0)
    resizable := true
    style_classes := ["background"]
    signal_handlers := []
    border_width := 0
    child := none
    size := (200, 200) }

def gtk_window_new (gtk : Gtk) : Gtk × Nat :=
  ({ gtk with windows := gtk.windows ++ [fresh_window] }, gtk.windows.length)

def update_window (gtk : Gtk) (window : Nat) (f : GtkWindow → GtkWindow) : Gtk :=
  { gtk with windows := List.modify f window gtk.windows }

def gtk_window_set_type_hint (gtk : Gtk) (window : Nat) (hint : GdkWindowTypeHint) : Gtk :=
  update_window gtk window (fun w => { w with type_hint := hint })

def gtk_window_set_keep_below (gtk : Gtk) (window : Nat) (setting : Bool) : Gtk :=
  update_window gtk window (fun w => { w with keep_below := setting })

def gtk_widget_set_name (gtk : Gtk) (window : Nat) (name : String) : Gtk :=
  update_window gtk window (fun w => { w with name := name })

def gtk_widget_set_size_request (gtk : Gtk) (window : Nat) (width height : Int) : Gtk :=
  update_window gtk window (fun w => { w with size_request := (width, height) })

def gtk_window_move (gtk : Gtk) (window : Nat) (x y : Int) : Gtk :=
  update_window gtk window (fun w => { w with position := (x, y) })

def gtk_window_set_resizable (gtk : Gtk) (window : Nat) (resizable : Bool) : Gtk :=
  update_window gtk window (fun w => { w with resizable := resizable })

def g_signal_connect (gtk : Gtk) (window : Nat) (signal : String) (handler : Callback) : Gtk :=
  update_window gtk window
    (fun w => { w with signal_handlers := w.signal_handlers ++ [(signal, handler)] })

/-- The call `gtk_style_context_add_class` on the style context of a window:
adds the class unless the window already has it. -/
def gtk_style_context_add_class (gtk : Gtk) (window : Nat) (class_name : String) : Gtk :=
  update_window gtk window
    (fun w => if class_name ∈ w.style_classes then w
              else { w with style_classes := w.style_classes ++ [class_name] })

def gtk_container_set_border_width (gtk : Gtk) (window : Nat) (border_width : Nat) : Gtk :=
  update_window gtk window (fun w => { w with border_width := border_width })

/-- The call `gtk_window_get_size`: the current size of the window. -/
def gtk_window_get_size (gtk : Gtk) (window : Nat) : Int × Int :=
  match gtk.windows[window]? with
  | some w => w.size
  | none => (0, 0)

/-- The comparison `strcmp` makes, character by character: the sign of the
first difference, zero when there is none. -/
def strcmp_chars : List Char → List Char → Int
  | [], [] => 0
  | [], _ :: _ => -1
  | _ :: _, [] => 1
  | a :: as, b :: bs =>
    if a.toNat < b.toNat then -1
    else if b.toNat < a.toNat then 1
    else strcmp_chars as bs

def strcmp (a b : String) : Int :=
  strcmp_chars a.data b.data

/-! ## `ui.c`: background windows -/

/-- The function `new_ui`: `malloc_ok` tells whether the allocation of the
record succeeds; when it does not, `g_error` ends the process. -/
def new_ui (malloc_ok : Bool) : Except String UI :=
  if malloc_ok then
    Except.ok
      { background_windows := []
        monitor_count := 0
        main_window := none
        layout_container := none
        password_label := none
        password_input := none
        feedback_label := none }
  else
    Except.error "Could not allocate memory for UI"

/-- The function `set_window_to_monitor_size`.  The monitor is never `NULL`
here, so the initial contents of the local rectangle are overwritten. -/
def set_window_to_monitor_size (monitor : GdkMonitor) (window : Nat) (gtk : Gtk) : Gtk :=
  let geometry := gdk_monitor_get_geometry (some monitor) ⟨0, 0, 0, 0⟩
  let gtk := gtk_widget_set_size_request gtk window geometry.width geometry.height
  let gtk := gtk_window_move gtk window geometry.x geometry.y
  gtk_window_set_resizable gtk window false

/-- The function `new_background_window`. -/
def new_background_window (monitor : GdkMonitor) (gtk : Gtk) : Gtk × Nat :=
  let (gtk, background_window) := gtk_window_new gtk
  let gtk := gtk_window_set_type_hint gtk background_window GdkWindowTypeHint.DESKTOP
  let gtk := gtk_window_set_keep_below gtk background_window true
  let gtk := gtk_widget_set_name gtk background_window "background"
  let gtk := set_window_to_monitor_size monitor background_window gtk
  let gtk := g_signal_connect gtk background_window "realize" Callback.hide_mouse_cursor
  let gtk := g_signal_connect gtk background_window "destroy" Callback.gtk_main_quit
  (gtk, background_window)

/-- The `for` loop of `setup_background_windows`: the first argument is the
number of iterations left before `m` reaches `ui->monitor_count`, the second
is the loop variable `m`.  A failed lookup leaves the loop (`break`). -/
def background_windows_loop {RGBA : Type} (config : Config RGBA) (display : GdkDisplay) :
    Nat → Nat → Gtk × UI → Gtk × UI
  | 0, _, state => state
  | remaining + 1, m, (gtk, ui) =>
    match gdk_display_get_monitor display m with
    | none => (gtk, ui)
    | some monitor =>
      let (gtk, background_window) := new_background_window monitor gtk
      let ui := { ui with
        background_windows := ui.background_windows.set m (some background_window) }
      let show_background_image :=
        (gdk_monitor_is_primary monitor || config.show_image_on_all_monitors) &&
        (strcmp config.background_image "\"\"" != 0)
      let gtk :=
        if show_background_image then
          gtk_style_context_add_class gtk background_window "with-image"
        else gtk
      background_windows_loop config display remaining (m + 1) (gtk, ui)

/-- The function `setup_background_windows`. -/
def setup_background_windows {RGBA : Type} (config : Config RGBA) (display : GdkDisplay)
    (state : Gtk × UI) : Gtk × UI :=
  let (gtk, ui) := state
  let ui := { ui with monitor_count := gdk_display_get_n_monitors display }
  let ui := { ui with background_windows := List.replicate ui.monitor_count none }
  background_windows_loop config display ui.monitor_count 0 (gtk, ui)

/-! ## `ui.c`: main window and layout container -/

/-- The function `setup_main_window`. -/
def setup_main_window {RGBA : Type} (config : Config RGBA) (state : Gtk × UI) : Gtk × UI :=
  let (gtk, ui) := state
  let (gtk, main_window) := gtk_window_new gtk
  let gtk := gtk_container_set_border_width gtk main_window config.layout_spacing
  let gtk := gtk_widget_set_name gtk main_window "main"
  let gtk := g_signal_connect gtk main_window "show" Callback.place_main_window
  let gtk := g_signal_connect gtk main_window "realize" Callback.hide_mouse_cursor
  let gtk := g_signal_connect gtk main_window "destroy" Callback.gtk_main_quit
  (gtk, { ui with main_window := some main_window })

/-- The function `place_main_window`, the handler of the main window's `show`
signal.  `stack` is the content of the local variable
`primary_monitor_geometry` before `gdk_monitor_get_geometry` is called: no
initial value is given to it, so this is whatever the stack holds. -/
def place_main_window (display : GdkDisplay) (stack : GdkRectangle) (gtk : Gtk)
    (main_window : Nat) : Gtk :=
  let primary_monitor := gdk_display_get_primary_monitor display
  let primary_monitor_geometry := gdk_monitor_get_geometry primary_monitor stack
  let (window_width, window_height) := gtk_window_get_size gtk main_window
  gtk_window_move gtk main_window
    (primary_monitor_geometry.x + Int.tdiv primary_monitor_geometry.width 2
      - Int.tdiv window_width 2)
    (primary_monitor_geometry.y + Int.tdiv primary_monitor_geometry.height 2
      - Int.tdiv window_height 2)

def gtk_grid_new (gtk : Gtk) : Gtk × Nat :=
  ({ gtk with grids := gtk.grids ++ [{ column_spacing := 0, row_spacing := 0 }] },
   gtk.grids.length)

def gtk_grid_set_column_spacing (gtk : Gtk) (grid : Nat) (spacing : Nat) : Gtk :=
  { gtk with grids := List.modify (fun g => { g with column_spacing := spacing }) grid gtk.grids }

def gtk_grid_set_row_spacing (gtk : Gtk) (grid : Nat) (spacing : Nat) : Gtk :=
  { gtk with grids := List.modify (fun g => { g with row_spacing := spacing }) grid gtk.grids }

/-- The call `gtk_container_add` on a window: a window holds one child, so the
widget becomes the child when the window has none, and the call changes
nothing otherwise (or when the window pointer is `NULL`). -/
def gtk_container_add (gtk : Gtk) (window : Option Nat) (widget : Nat) : Gtk :=
  match window with
  | none => gtk
  | some w =>
    update_window gtk w (fun win =>
      match win.child with
      | none => { win with child := some widget }
      | some _ => win)

/-- The function `create_and_attach_layout_container`. -/
def create_and_attach_layout_container (state : Gtk × UI) : Gtk × UI :=
  let (gtk, ui) := state
  let (gtk, grid) := gtk_grid_new gtk
  let ui := { ui with layout_container := some grid }
  let gtk := gtk_grid_set_column_spacing gtk grid 5
  let gtk := gtk_grid_set_row_spacing gtk grid 5
  let gtk := gtk_container_add gtk ui.main_window grid
  (gtk, ui)

/-! ## `ui.c`: stylesheet -/

/-- The format string of the `asprintf` call in
`attach_config_colors_to_screen`, one source line per line. -/
def css_format : String :=
  "* \x7b\n" ++
      "font-family: %s;\n" ++
      "font-size: %s;\n" ++
      "font-weight: %s;\n" ++
      "font-style: %s;\n" ++
  "\x7d\n" ++
  "label \x7b\n" ++
      "color: %s;\n" ++
  "\x7d\n" ++
  "label#error \x7b\n" ++
      "color: %s;\n" ++
  "\x7d\n" ++
  "#background \x7b\n" ++
      "background-color: %s;\n" ++
  "\x7d\n" ++
  "#background.with-image \x7b\n" ++
      "background-image: image(url(%s), %s);\n" ++
      "background-repeat: no-repeat;\n" ++
      "background-position: center;\n" ++
  "\x7d\n" ++
  "#main, #password \x7b\n" ++
      "border-width: %s;\n" ++
      "border-color: %s;\n" ++
      "border-style: solid;\n" ++
  "\x7d\n" ++
  "#main \x7b\n" ++
      "background-color: %s;\n" ++
  "\x7d\n" ++
  "#password \x7b\n" ++
      "color: %s;\n" ++
      "caret-color: %s;\n" ++
      "background-color: %s;\n" ++
      "border-width: %s;\n" ++
      "border-color: %s;\n" ++
      "background-image: none;\n" ++
      "box-shadow: none;\n" ++
      "border-image-width: 0;\n" ++
  "\x7d\n"

/-- The text a `printf`-family function writes for a format whose only
directive is `%s`: every `%s` is replaced by the next argument, every other
character is copied. -/
def format_s : List Char → List (List Char) → List Char
  | [], _ => []
  | '%' :: 's' :: fmt, a :: args => a ++ format_s fmt args
  | c :: fmt, args => c :: format_s fmt args

def INT_MAX : Nat := 2147483647

/-- The call `asprintf(&css, fmt, ...)`: the returned length and the
allocated text.  `alloc_ok` tells whether the C library can allocate the
buffer.  On failure, or when the length does not fit an `int`, the result is
`-1` and no text. -/
def asprintf (alloc_ok : Bool) (fmt : List Char) (args : List (List Char)) :
    Int × Option (List Char) :=
  let text := format_s fmt args
  if alloc_ok && decide ((String.mk text).utf8ByteSize ≤ INT_MAX) then
    (((String.mk text).utf8ByteSize : Int), some text)
  else
    (-1, none)

/-- The variable arguments of the `asprintf` call, in order.
`gdk_rgba_to_string` is the GDK serialisation of a colour. -/
def css_arguments {RGBA : Type} (gdk_rgba_to_string : RGBA → String) (config : Config RGBA) :
    List (List Char) :=
  let caret_color :=
    if config.show_input_cursor then config.password_color
    else config.password_background_color
  [ config.font.data
  , config.font_size.data
  , config.font_weight.data
  , config.font_style.data
  , (gdk_rgba_to_string config.text_color).data
  , (gdk_rgba_to_string config.error_color).data
  , (gdk_rgba_to_string config.background_color).data
  , config.background_image.data
  , (gdk_rgba_to_string config.background_color).data
  , config.border_width.data
  , (gdk_rgba_to_string config.border_color).data
  , (gdk_rgba_to_string config.window_color).data
  , (gdk_rgba_to_string config.password_color).data
  , (gdk_rgba_to_string caret_color).data
  , (gdk_rgba_to_string config.password_background_color).data
  , config.password_border_width.data
  , (gdk_rgba_to_string config.password_border_color).data ]

/-- The stylesheet text the `asprintf` call of `attach_config_colors_to_screen`
builds. -/
def css_text {RGBA : Type} (gdk_rgba_to_string : RGBA → String) (config : Config RGBA) :
    List Char :=
  format_s css_format.data (css_arguments gdk_rgba_to_string config)

def gtk_css_provider_new : GtkCssProvider :=
  { data := none }

/-- The call `gtk_css_provider_load_from_data(provider, css, -1, NULL)`. -/
def gtk_css_provider_load_from_data (_provider : GtkCssProvider) (css : Option (List Char)) :
    GtkCssProvider :=
  { data := css }

def GTK_STYLE_PROVIDER_PRIORITY_USER : Nat := 800

def gtk_style_context_add_provider_for_screen (gtk : Gtk) (provider : GtkCssProvider)
    (priority : Nat) : Gtk :=
  { gtk with screen_providers := gtk.screen_providers ++ [(provider, priority)] }

/-- The function `attach_config_colors_to_screen`. -/
def attach_config_colors_to_screen {RGBA : Type} (gdk_rgba_to_string : RGBA → String)
    (alloc_ok : Bool) (config : Config RGBA) (gtk : Gtk) : Gtk :=
  let provider := gtk_css_provider_new
  let (css_string_length, css) :=
    asprintf alloc_ok css_format.data (css_arguments gdk_rgba_to_string config)
  if css_string_length ≥ 0 then
    let provider := gtk_css_provider_load_from_data provider css
    gtk_style_context_add_provider_for_screen gtk provider
      (GTK_STYLE_PROVIDER_PRIORITY_USER + 1)
  else
    gtk

/-! ## Auxiliary definitions used in the statements -/

/-- The monitors the loop of `setup_background_windows` resolves before it
stops: the lookups at `m`, `m + 1`, ... up to the first that fails, at most
`remaining` of them. -/
def resolved_monitors (display : GdkDisplay) : Nat → Nat → List GdkMonitor
  | 0, _ => []
  | remaining + 1, m =>
    match gdk_display_get_monitor display m with
    | none => []
    | some monitor => monitor :: resolved_monitors display remaining (m + 1)

/-- The number of monitors resolved before the first failed lookup. -/
def resolved_count (display : GdkDisplay) : Nat :=
  (resolved_monitors display display.n_monitors 0).length

/-- The background window of a monitor as `new_background_window` leaves it. -/
def monitor_window (monitor : GdkMonitor) : GtkWindow :=
  { type_hint := GdkWindowTypeHint.DESKTOP
    keep_below := true
    name := "background"
    size_request := (monitor.geometry.width, monitor.geometry.height)
    position := (monitor.geometry.x, monitor.geometry.y)
    resizable := false
    style_classes := ["background"]
    signal_handlers :=
      [("realize", Callback.hide_mouse_cursor), ("destroy", Callback.gtk_main_quit)]
    border_width := 0
    child := none
    size := (200, 200) }

/-- The background window of a monitor at the end of its loop iteration. -/
def styled_window {RGBA : Type} (config : Config RGBA) (monitor : GdkMonitor) : GtkWindow :=
  if (monitor.is_primary || config.show_image_on_all_monitors) &&
      (strcmp config.background_image "\"\"" != 0) then
    { monitor_window monitor with style_classes := ["background", "with-image"] }
  else monitor_window monitor

/-! ## Reading a stylesheet back -/

/-- Whether the text begins with the pattern. -/
def starts_with : List Char → List Char → Bool
  | [], _ => true
  | _ :: _, [] => false
  | p :: ps, c :: cs => p == c && starts_with ps cs

/-- The number of positions of the text at which the pattern occurs. -/
def count_occurrences (pattern : List Char) : List Char → Nat
  | [] => 0
  | c :: cs => (if starts_with pattern (c :: cs) then 1 else 0) + count_occurrences pattern cs

/-- Splits the text at the first occurrence of the pattern: what stands
before it and what stands after it. -/
def find_split (pattern : List Char) : List Char → Option (List Char × List Char)
  | [] => if starts_with pattern [] then some ([], []) else none
  | c :: cs =>
    if starts_with pattern (c :: cs) then some ([], (c :: cs).drop pattern.length)
    else
      match find_split pattern cs with
      | some (value, rest) => some (c :: value, rest)
      | none => none

/-- The literal pieces of a format: the text before the first `%s`, between
consecutive `%s`, and after the last. -/
def format_literals : List Char → List (List Char)
  | [] => [[]]
  | '%' :: 's' :: fmt => [] :: format_literals fmt
  | c :: fmt =>
    match format_literals fmt with
    | l :: ls => (c :: l) :: ls
    | [] => [[c]]

/-- Reads one slot value in front of each literal: a value ends where its
literal first occurs.  The text must end with the last literal. -/
def scan_literals : List (List Char) → List Char → Option (List (List Char))
  | [], text => if text = [] then some [] else none
  | literal :: literals, text =>
    match find_split literal text with
    | none => none
    | some (value, rest) =>
      match scan_literals literals rest with
      | none => none
      | some values => some (value :: values)

/-- Reads the slot values of a text written from the format back out of it. -/
def scan_slots (fmt text : List Char) : Option (List (List Char)) :=
  match format_literals fmt with
  | [] => none
  | head :: literals =>
    if starts_with head text then scan_literals literals (text.drop head.length) else none

/-- The text made of each value followed by its literal. -/
def fill : List (List Char × List Char) → List Char
  | [] => []
  | (value, literal) :: rest => value ++ (literal ++ fill rest)

/-- The literal of `css_format` before the first slot. -/
def css_head : List Char :=
  "* \x7b\nfont-family: ".data

/-- The literals of `css_format` after each of its seventeen slots. -/
def css_literals : List (List Char) :=
  [ ";\nfont-size: ".data
  , ";\nfont-weight: ".data
  , ";\nfont-style: ".data
  , ";\n\x7d\nlabel \x7b\ncolor: ".data
  , ";\n\x7d\nlabel#error \x7b\ncolor: ".data
  , ";\n\x7d\n#background \x7b\nbackground-color: ".data
  , ";\n\x7d\n#background.with-image \x7b\nbackground-image: image(url(".data
  , "), ".data
  , ");\nbackground-repeat: no-repeat;\nbackground-position: center;\n\x7d\n#main, #password \x7b\nborder-width: ".data
  , ";\nborder-color: ".data
  , ";\nborder-style: solid;\n\x7d\n#main \x7b\nbackground-color: ".data
  , ";\n\x7d\n#password \x7b\ncolor: ".data
  , ";\ncaret-color: ".data
  , ";\nbackground-color: ".data
  , ";\nborder-width: ".data
  , ";\nborder-color: ".data
  , ";\nbackground-image: none;\nbox-shadow: none;\nborder-image-width: 0;\n\x7d\n".data ]

/-- The fourteen configured font, colour and width values as they are
substituted: text fields verbatim, colour fields serialised. -/
def configured_values {RGBA : Type} (gdk_rgba_to_string : RGBA → String)
    (config : Config RGBA) : List (List Char) :=
  [ config.font.data
  , config.font_size.data
  , config.font_weight.data
  , config.font_style.data
  , (gdk_rgba_to_string config.text_color).data
  , (gdk_rgba_to_string config.error_color).data
  , (gdk_rgba_to_string config.background_color).data
  , (gdk_rgba_to_string config.window_color).data
  , config.border_width.data
  , (gdk_rgba_to_string config.border_color).data
  , (gdk_rgba_to_string config.password_color).data
  , (gdk_rgba_to_string config.password_background_color).data
  , config.password_border_width.data
  , (gdk_rgba_to_string config.password_border_color).data ]

/-- The statement that every configured value occurs exactly once in the
stylesheet text. -/
def every_value_exactly_once {RGBA : Type} (gdk_rgba_to_string : RGBA → String)
    (config : Config RGBA) : Prop :=
  ∀ value ∈ configured_values gdk_rgba_to_string config,
    count_occurrences value (css_text gdk_rgba_to_string config) = 1

/-- The statement that the configured values can be read back out of the
stylesheet text, whatever the configuration. -/
def values_recoverable {RGBA : Type} (gdk_rgba_to_string : RGBA → String) : Prop :=
  ∃ reader : List Char → List (List Char),
    ∀ config : Config RGBA,
      reader (css_text gdk_rgba_to_string config) = configured_values gdk_rgba_to_string config

/-! ## The stylesheet as rule groups -/

/-- The serialisation of the colours of the sample configurations, which
are given by their serialised text. -/
def sample_rgba_to_string (color : String) : String :=
  color

/-- A configuration with a background image, shown on the primary monitor
only, and with every substituted value different from the others.  Colours
are given by their serialised text. -/
def sample_config : Config String :=
  { font := "Sans"
    font_size := "1em"
    font_weight := "bold"
    font_style := "normal"
    text_color := "rgb(1,1,1)"
    error_color := "rgb(2,2,2)"
    background_color := "rgb(3,3,3)"
    background_image := "/usr/share/wall.png"
    window_color := "rgb(4,4,4)"
    border_width := "2px"
    border_color := "rgb(5,5,5)"
    password_color := "rgb(6,6,6)"
    password_background_color := "rgb(7,7,7)"
    password_border_width := "3px"
    password_border_color := "rgb(8,8,8)"
    show_input_cursor := true
    show_image_on_all_monitors := false
    layout_spacing := 10 }

def primary_1920 : GdkMonitor :=
  { geometry := ⟨0, 0, 1920, 1080⟩, is_primary := true }

def secondary_1280 : GdkMonitor :=
  { geometry := ⟨1920, 0, 1280, 1024⟩, is_primary := false }

/-- Two monitors, the first of them primary. -/
def two_monitor_display : GdkDisplay :=
  { n_monitors := 2
    get_monitor := fun m => if m = 0 then some primary_1920
                            else if m = 1 then some secondary_1280 else none
    primary_monitor := some primary_1920 }

/-- A display that reports two monitors and resolves only the first. -/
def half_resolved_display : GdkDisplay :=
  { n_monitors := 2
    get_monitor := fun m => if m = 0 then some primary_1920 else none
    primary_monitor := some primary_1920 }

/-- A display with one monitor and no primary monitor. -/
def no_primary_display : GdkDisplay :=
  { n_monitors := 1
    get_monitor := fun m => if m = 0 then some secondary_1280 else none
    primary_monitor := none }

def empty_gtk : Gtk :=
  { windows := [], grids := [], screen_providers := [] }

/-- The record `new_ui` returns. -/
def blank_ui : UI :=
  { background_windows := []
    monitor_count := 0
    main_window := none
    layout_container := none
    password_label := none
    password_input := none
    feedback_label := none }

/-- A configuration whose font value holds the end of its own declaration
and a second `font-size` declaration. -/
def injected_config_a : Config String :=
  { sample_config with font := "Sans;\nfont-size: 2em", font_size := "1em" }

/-- A configuration that differs from `injected_config_a` in `font` and
`font_size` and has the same stylesheet. -/
def injected_config_b : Config String :=
  { sample_config with font := "Sans", font_size := "2em;\nfont-size: 1em" }

/-- A main window whose size request is 200x100 and whose measured size is
260x130. -/
def measured_window : GtkWindow :=
  { fresh_window with name := "main", size_request := (200, 100), size := (260, 130) }

/-- A toolkit state whose only window is `measured_window`. -/
def measured_gtk : Gtk :=
  { windows := [measured_window], grids := [], screen_providers := [] }

/-! ## Lemmas: background windows -/

theorem modify_append_length {α : Type} (f : α → α) (l : List α) (a : α) :
    List.modify f l.length (l ++ [a]) = l ++ [f a] := by
  induction l with
  | nil => rfl
  | cons x xs ih =>
    simp only [List.length_cons, List.cons_append, List.modify_succ_cons, ih]

theorem new_background_window_eq (monitor : GdkMonitor) (gtk : Gtk) :
    new_background_window monitor gtk =
      ({ gtk with windows := gtk.windows ++ [monitor_window monitor] }, gtk.windows.length) := by
  simp [new_background_window, gtk_window_new, gtk_window_set_type_hint,
    gtk_window_set_keep_below, gtk_widget_set_name, set_window_to_monitor_size,
    gtk_widget_set_size_request, gtk_window_move, gtk_window_set_resizable, g_signal_connect,
    update_window, modify_append_length, gdk_monitor_get_geometry, monitor_window, fresh_window]

theorem char_toNat_inj (a b : Char) (h : a.toNat = b.toNat) : a = b := by
  apply Char.ext
  apply UInt32.ext
  exact h

theorem strcmp_chars_eq_zero_iff : ∀ a b : List Char, strcmp_chars a b = 0 ↔ a = b
  | [], [] => by simp [strcmp_chars]
  | [], _ :: _ => by simp [strcmp_chars]
  | _ :: _, [] => by simp [strcmp_chars]
  | a :: as, b :: bs => by
    have ih := strcmp_chars_eq_zero_iff as bs
    unfold strcmp_chars
    by_cases h1 : a.toNat < b.toNat
    · have : a ≠ b := by rintro rfl; omega
      simp [h1, this]
    · by_cases h2 : b.toNat < a.toNat
      · have : a ≠ b := by rintro rfl; omega
        simp [h1, h2, this]
      · have : a = b := char_toNat_inj a b (by omega)
        simp [h1, h2, this, ih]

theorem strcmp_eq_zero_iff (a b : String) : strcmp a b = 0 ↔ a = b := by
  unfold strcmp
  rw [strcmp_chars_eq_zero_iff]
  constructor
  · intro h; exact String.ext h
  · intro h; rw [h]

theorem loop_iteration_eq {RGBA : Type} (config : Config RGBA) (monitor : GdkMonitor)
    (gtk : Gtk) :
    (if ((gdk_monitor_is_primary monitor || config.show_image_on_all_monitors) &&
          (strcmp config.background_image "\"\"" != 0)) = true then
        gtk_style_context_add_class
          { gtk with windows := gtk.windows ++ [monitor_window monitor] }
          gtk.windows.length "with-image"
      else { gtk with windows := gtk.windows ++ [monitor_window monitor] }) =
      { gtk with windows := gtk.windows ++ [styled_window config monitor] } := by
  unfold styled_window gdk_monitor_is_primary
  split
  · simp [gtk_style_context_add_class, update_window, modify_append_length, monitor_window]
  · rfl

theorem background_windows_loop_unfold {RGBA : Type} (config : Config RGBA)
    (display : GdkDisplay) (remaining m : Nat) (gtk : Gtk) (ui : UI) (monitor : GdkMonitor)
    (h : display.get_monitor m = some monitor) :
    background_windows_loop config display (remaining + 1) m (gtk, ui) =
      background_windows_loop config display remaining (m + 1)
        ({ gtk with windows := gtk.windows ++ [styled_window config monitor] },
         { ui with background_windows := ui.background_windows.set m (some gtk.windows.length) }) := by
  rw [background_windows_loop]
  simp only [gdk_display_get_monitor, h, new_background_window_eq]
  rw [loop_iteration_eq]

theorem background_windows_loop_spec {RGBA : Type} (config : Config RGBA)
    (display : GdkDisplay) (remaining : Nat) :
    ∀ (m : Nat) (gtk : Gtk) (ui : UI), m + remaining ≤ ui.background_windows.length →
      (background_windows_loop config display remaining m (gtk, ui)).1 =
        { gtk with windows := gtk.windows ++
            (resolved_monitors display remaining m).map (styled_window config) } ∧
      (background_windows_loop config display remaining m (gtk, ui)).2 =
        { ui with background_windows :=
            (background_windows_loop config display remaining m (gtk, ui)).2.background_windows } ∧
      (background_windows_loop config display remaining m (gtk, ui)).2.background_windows.length =
        ui.background_windows.length ∧
      ∀ j : Nat,
        (background_windows_loop config display remaining m (gtk, ui)).2.background_windows[j]? =
          if m ≤ j ∧ j < m + (resolved_monitors display remaining m).length then
            some (some (gtk.windows.length + (j - m)))
          else ui.background_windows[j]? := by
  induction remaining with
  | zero =>
    intro m gtk ui _
    simp only [background_windows_loop, resolved_monitors, List.map_nil, List.append_nil,
      List.length_nil, Nat.add_zero, true_and]
    intro j
    have : ¬ (m ≤ j ∧ j < m) := by omega
    simp [this]
  | succ n ih =>
    intro m gtk ui hlen
    cases h : display.get_monitor m with
    | none =>
      have hloop : background_windows_loop config display (n + 1) m (gtk, ui) = (gtk, ui) := by
        rw [background_windows_loop]
        simp only [gdk_display_get_monitor, h]
      have hres : resolved_monitors display (n + 1) m = [] := by
        simp only [resolved_monitors, gdk_display_get_monitor, h]
      rw [hloop, hres]
      simp only [List.map_nil, List.append_nil, List.length_nil, Nat.add_zero, true_and]
      intro j
      have : ¬ (m ≤ j ∧ j < m) := by omega
      simp [this]
    | some monitor =>
      have hres : resolved_monitors display (n + 1) m =
          monitor :: resolved_monitors display n (m + 1) := by
        simp only [resolved_monitors, gdk_display_get_monitor, h]
      rw [background_windows_loop_unfold config display n m gtk ui monitor h, hres]
      obtain ⟨h1, h2, h3, h4⟩ := ih (m + 1)
        { gtk with windows := gtk.windows ++ [styled_window config monitor] }
        { ui with background_windows := ui.background_windows.set m (some gtk.windows.length) }
        (by simp only [List.length_set]; omega)
      refine ⟨?_, ?_, ?_, ?_⟩
      · rw [h1]; simp
      · rw [h2]
      · rw [h3]; simp
      · intro j
        rw [h4 j]
        simp only [List.length_append, List.length_cons, List.length_nil, List.length_map,
          List.getElem?_set]
        by_cases hj : m = j
        · subst hj
          have : m < ui.background_windows.length := by omega
          simp [this]
        · by_cases hj2 : m + 1 ≤ j ∧ j < m + 1 + (resolved_monitors display n (m + 1)).length
          · have hj3 : m ≤ j ∧ j < m + ((resolved_monitors display n (m + 1)).length + 1) := by
              omega
            simp only [hj2, hj3, and_self, if_true]
            congr 2
            omega
          · have hj3 : ¬ (m ≤ j ∧ j < m + ((resolved_monitors display n (m + 1)).length + 1)) := by
              omega
            simp [hj, hj2, hj3]

theorem resolved_monitors_length_le (display : GdkDisplay) (remaining : Nat) :
    ∀ m : Nat, (resolved_monitors display remaining m).length ≤ remaining := by
  induction remaining with
  | zero => intro m; simp [resolved_monitors]
  | succ n ih =>
    intro m
    cases h : display.get_monitor m with
    | none => simp [resolved_monitors, gdk_display_get_monitor, h]
    | some monitor =>
      have := ih (m + 1)
      simp only [resolved_monitors, gdk_display_get_monitor, h, List.length_cons]
      omega

theorem resolved_monitors_getElem (display : GdkDisplay) (remaining : Nat) :
    ∀ (m i : Nat), i < (resolved_monitors display remaining m).length →
      display.get_monitor (m + i) = (resolved_monitors display remaining m)[i]? ∧
      ((resolved_monitors display remaining m)[i]?).isSome = true := by
  induction remaining with
  | zero => intro m i hi; simp [resolved_monitors] at hi
  | succ n ih =>
    intro m i hi
    cases h : display.get_monitor m with
    | none => simp [resolved_monitors, gdk_display_get_monitor, h] at hi
    | some monitor =>
      have hres : resolved_monitors display (n + 1) m =
          monitor :: resolved_monitors display n (m + 1) := by
        simp only [resolved_monitors, gdk_display_get_monitor, h]
      rw [hres] at hi ⊢
      cases i with
      | zero => simp [h]
      | succ i =>
        have hi2 : i < (resolved_monitors display n (m + 1)).length := by
          simpa using hi
        have := ih (m + 1) i hi2
        have e : m + (i + 1) = m + 1 + i := by omega
        rw [e]
        simpa using this

theorem resolved_monitors_stop (display : GdkDisplay) (remaining : Nat) :
    ∀ m : Nat, (resolved_monitors display remaining m).length < remaining →
      display.get_monitor (m + (resolved_monitors display remaining m).length) = none := by
  induction remaining with
  | zero => intro m h; omega
  | succ n ih =>
    intro m hlt
    cases h : display.get_monitor m with
    | none => simp [resolved_monitors, gdk_display_get_monitor, h]
    | some monitor =>
      have hres : resolved_monitors display (n + 1) m =
          monitor :: resolved_monitors display n (m + 1) := by
        simp only [resolved_monitors, gdk_display_get_monitor, h]
      rw [hres] at hlt ⊢
      have hlt2 : (resolved_monitors display n (m + 1)).length < n := by
        simpa using hlt
      have := ih (m + 1) hlt2
      have e : m + (monitor :: resolved_monitors display n (m + 1)).length =
          m + 1 + (resolved_monitors display n (m + 1)).length := by
        simp only [List.length_cons]; omega
      rw [e]
      exact this

theorem setup_background_windows_eq {RGBA : Type} (config : Config RGBA)
    (display : GdkDisplay) (gtk : Gtk) (ui : UI) :
    setup_background_windows config display (gtk, ui) =
      background_windows_loop config display display.n_monitors 0
        (gtk, { ui with monitor_count := display.n_monitors,
                        background_windows := List.replicate display.n_monitors none }) := rfl

/-- After `setup_background_windows`, slot `i` of the array, for `i` below the
number of resolved monitors, holds the handle of a window created by the call,
and that window is the one built for monitor `i`. -/
theorem setup_background_windows_window_at {RGBA : Type} (config : Config RGBA)
    (display : GdkDisplay) (gtk : Gtk) (ui : UI) (i : Nat) (monitor : GdkMonitor)
    (hi : i < resolved_count display) (hm : display.get_monitor i = some monitor) :
    (setup_background_windows config display (gtk, ui)).2.background_windows[i]? =
        some (some (gtk.windows.length + i)) ∧
    (setup_background_windows config display (gtk, ui)).1.windows[gtk.windows.length + i]? =
        some (styled_window config monitor) := by
  rw [setup_background_windows_eq]
  obtain ⟨h1, _, _, h4⟩ := background_windows_loop_spec config display display.n_monitors 0 gtk
    { ui with monitor_count := display.n_monitors,
              background_windows := List.replicate display.n_monitors none }
    (by simp)
  have hget := (resolved_monitors_getElem display display.n_monitors 0 i hi).1
  rw [Nat.zero_add, hm] at hget
  constructor
  · rw [h4 i]
    have : 0 ≤ i ∧ i < 0 + (resolved_monitors display display.n_monitors 0).length :=
      ⟨Nat.zero_le _, by simpa [resolved_count] using hi⟩
    simp only [this, and_self, if_true, Nat.sub_zero]
  · rw [h1]
    simp only
    rw [List.getElem?_append_right (Nat.le_add_right _ _), Nat.add_sub_cancel_left,
      List.getElem?_map, ← hget]
    rfl

theorem styled_window_geometry {RGBA : Type} (config : Config RGBA) (monitor : GdkMonitor) :
    (styled_window config monitor).size_request =
        (monitor.geometry.width, monitor.geometry.height) ∧
    (styled_window config monitor).position = (monitor.geometry.x, monitor.geometry.y) ∧
    (styled_window config monitor).resizable = false := by
  unfold styled_window
  split <;> exact ⟨rfl, rfl, rfl⟩

theorem styled_window_class {RGBA : Type} (config : Config RGBA) (monitor : GdkMonitor) :
    "with-image" ∈ (styled_window config monitor).style_classes ↔
      (monitor.is_primary = true ∨ config.show_image_on_all_monitors = true) ∧
        config.background_image ≠ "\"\"" := by
  unfold styled_window
  split
  · rename_i h
    simp only [Bool.and_eq_true, Bool.or_eq_true, bne_iff_ne, ne_eq, strcmp_eq_zero_iff] at h
    simp [h]
  · rename_i h
    simp only [Bool.and_eq_true, Bool.or_eq_true, bne_iff_ne, ne_eq, strcmp_eq_zero_iff] at h
    constructor
    · intro hmem
      simp [monitor_window] at hmem
    · intro hc
      exact absurd hc h

theorem new_ui_eq : new_ui true = Except.ok blank_ui := rfl

/-- After `setup_background_windows`, `monitor_count` is the reported count,
the array has that many slots, and a slot at or above the number of resolved
monitors holds what the allocation left there. -/
theorem setup_background_windows_count {RGBA : Type} (config : Config RGBA)
    (display : GdkDisplay) (gtk : Gtk) (ui : UI) :
    (setup_background_windows config display (gtk, ui)).2.monitor_count = display.n_monitors ∧
    (setup_background_windows config display (gtk, ui)).2.background_windows.length =
      display.n_monitors ∧
    ∀ j : Nat, resolved_count display ≤ j → j < display.n_monitors →
      (setup_background_windows config display (gtk, ui)).2.background_windows[j]? =
        some none := by
  rw [setup_background_windows_eq]
  obtain ⟨_, h2, h3, h4⟩ := background_windows_loop_spec config display display.n_monitors 0 gtk
    { ui with monitor_count := display.n_monitors,
              background_windows := List.replicate display.n_monitors none }
    (by simp)
  refine ⟨?_, ?_, ?_⟩
  · rw [h2]
  · rw [h3]; simp
  · intro j hk hj
    rw [h4 j]
    have hk2 : (resolved_monitors display display.n_monitors 0).length ≤ j := hk
    have hnot : ¬ (0 ≤ j ∧ j < 0 + (resolved_monitors display display.n_monitors 0).length) := by
      omega
    simp only [hnot, if_false]
    exact List.getElem?_replicate_of_lt hj

/-- C1.  For every configuration and every monitor resolved by
`setup_background_windows` (index `i` below the number of resolved monitors,
lookup `i` yielding `monitor`), the array slot `i` holds the window created
for that monitor, and this window has the style class "with-image" if and only
if (the monitor is primary or `show_image_on_all_monitors` is set) and
`background_image` is not the two-character string of two double quotes. -/
theorem with_image_class_iff {RGBA : Type} (config : Config RGBA) (display : GdkDisplay)
    (gtk : Gtk) (ui : UI) (i : Nat) (monitor : GdkMonitor)
    (hi : i < resolved_count display) (hm : display.get_monitor i = some monitor) :
    ∃ window : GtkWindow,
      (setup_background_windows config display (gtk, ui)).2.background_windows[i]? =
        some (some (gtk.windows.length + i)) ∧
      (setup_background_windows config display (gtk, ui)).1.windows[gtk.windows.length + i]? =
        some window ∧
      ("with-image" ∈ window.style_classes ↔
        (monitor.is_primary = true ∨ config.show_image_on_all_monitors = true) ∧
          config.background_image ≠ "\"\"") := by
  obtain ⟨hslot, hwin⟩ := setup_background_windows_window_at config display gtk ui i monitor hi hm
  exact ⟨styled_window config monitor, hslot, hwin, styled_window_class config monitor⟩

/-- Witness for C1: with `show_image_on_all_monitors = false`, an image that
is not the sentinel and two monitors of which the first is primary, the
window of the primary monitor has the class "with-image" and the other window
does not, so exactly one of the two windows created has it. -/
theorem with_image_class_iff_witness :
    (0 < resolved_count two_monitor_display ∧
      two_monitor_display.get_monitor 0 = some primary_1920) ∧
    (∃ window : GtkWindow,
      (setup_background_windows sample_config two_monitor_display
        (empty_gtk, blank_ui)).2.background_windows[0]? = some (some (empty_gtk.windows.length + 0)) ∧
      (setup_background_windows sample_config two_monitor_display
        (empty_gtk, blank_ui)).1.windows[empty_gtk.windows.length + 0]? = some window ∧
      ("with-image" ∈ window.style_classes ↔
        (primary_1920.is_primary = true ∨ sample_config.show_image_on_all_monitors = true) ∧
          sample_config.background_image ≠ "\"\"")) ∧
    ((setup_background_windows sample_config two_monitor_display
        (empty_gtk, blank_ui)).1.windows.map
          (fun w => decide ("with-image" ∈ w.style_classes))) = [true, false] :=
  ⟨⟨by decide, rfl⟩,
   with_image_class_iff sample_config two_monitor_display empty_gtk blank_ui 0 primary_1920
     (by decide) rfl,
   by decide⟩

/-- C3.  For every reported count `N` and every outcome of the monitor
lookups, let `k` be `resolved_count display`.  Then `k` is the first index
below `N` whose lookup yields no monitor (`k = N` when every lookup succeeds):
`k ≤ N`, every lookup below `k` succeeds, and lookup `k` fails when `k < N`.
`setup_background_windows` creates exactly `k` windows and leaves the windows
that existed before untouched; for every `i < k` slot `i` of the array holds
the `i`-th created window, whose size request is monitor `i`'s width and
height, whose position is monitor `i`'s origin and which is not resizable.
With `N = 0` no window is created. -/
theorem setup_background_windows_creates_resolved {RGBA : Type} (config : Config RGBA)
    (display : GdkDisplay) (gtk : Gtk) (ui : UI) :
    resolved_count display ≤ display.n_monitors ∧
    (∀ i : Nat, i < resolved_count display → (display.get_monitor i).isSome = true) ∧
    (resolved_count display < display.n_monitors →
      display.get_monitor (resolved_count display) = none) ∧
    (setup_background_windows config display (gtk, ui)).1.windows.length =
      gtk.windows.length + resolved_count display ∧
    (∀ i : Nat, i < gtk.windows.length →
      (setup_background_windows config display (gtk, ui)).1.windows[i]? = gtk.windows[i]?) ∧
    (∀ i : Nat, i < resolved_count display →
      ∃ (monitor : GdkMonitor) (window : GtkWindow),
        display.get_monitor i = some monitor ∧
        (setup_background_windows config display (gtk, ui)).2.background_windows[i]? =
          some (some (gtk.windows.length + i)) ∧
        (setup_background_windows config display (gtk, ui)).1.windows[gtk.windows.length + i]? =
          some window ∧
        window.size_request = (monitor.geometry.width, monitor.geometry.height) ∧
        window.position = (monitor.geometry.x, monitor.geometry.y) ∧
        window.resizable = false) ∧
    (display.n_monitors = 0 →
      (setup_background_windows config display (gtk, ui)).1.windows = gtk.windows) := by
  have hle : resolved_count display ≤ display.n_monitors :=
    resolved_monitors_length_le display display.n_monitors 0
  have hsome : ∀ i : Nat, i < resolved_count display →
      (display.get_monitor i).isSome = true := by
    intro i hi
    have := resolved_monitors_getElem display display.n_monitors 0 i hi
    rw [Nat.zero_add] at this
    rw [this.1]
    exact this.2
  have hwindows : (setup_background_windows config display (gtk, ui)).1.windows =
      gtk.windows ++
        (resolved_monitors display display.n_monitors 0).map (styled_window config) := by
    rw [setup_background_windows_eq]
    rw [(background_windows_loop_spec config display display.n_monitors 0 gtk
      { ui with monitor_count := display.n_monitors,
                background_windows := List.replicate display.n_monitors none }
      (by simp)).1]
  refine ⟨hle, hsome, ?_, ?_, ?_, ?_, ?_⟩
  · intro hlt
    have := resolved_monitors_stop display display.n_monitors 0 hlt
    rw [Nat.zero_add] at this
    exact this
  · rw [hwindows]
    simp [resolved_count]
  · intro i hi
    rw [hwindows, List.getElem?_append_left hi]
  · intro i hi
    have hs := hsome i hi
    cases hm : display.get_monitor i with
    | none => rw [hm] at hs; cases hs
    | some monitor =>
      obtain ⟨hslot, hwin⟩ :=
        setup_background_windows_window_at config display gtk ui i monitor hi hm
      obtain ⟨g1, g2, g3⟩ := styled_window_geometry config monitor
      exact ⟨monitor, styled_window config monitor, rfl, hslot, hwin, g1, g2, g3⟩
  · intro h0
    have hk : resolved_count display = 0 := by omega
    rw [hwindows]
    have : resolved_monitors display display.n_monitors 0 = [] :=
      List.eq_nil_of_length_eq_zero hk
    rw [this]
    simp

/-- Witness for C3: a display that reports two monitors and resolves only the
first.  One window is created, and it has the size and origin of the first
monitor. -/
theorem setup_background_windows_creates_resolved_witness :
    resolved_count half_resolved_display = 1 ∧
    (setup_background_windows sample_config half_resolved_display
      (empty_gtk, blank_ui)).1.windows.length =
        empty_gtk.windows.length + resolved_count half_resolved_display ∧
    ∃ (monitor : GdkMonitor) (window : GtkWindow),
      half_resolved_display.get_monitor 0 = some monitor ∧
      (setup_background_windows sample_config half_resolved_display
        (empty_gtk, blank_ui)).2.background_windows[0]? =
          some (some (empty_gtk.windows.length + 0)) ∧
      (setup_background_windows sample_config half_resolved_display
        (empty_gtk, blank_ui)).1.windows[empty_gtk.windows.length + 0]? = some window ∧
      window.size_request = (monitor.geometry.width, monitor.geometry.height) ∧
      window.position = (monitor.geometry.x, monitor.geometry.y) ∧
      window.resizable = false :=
  ⟨by decide,
   (setup_background_windows_creates_resolved sample_config half_resolved_display
     empty_gtk blank_ui).2.2.2.1,
   (setup_background_windows_creates_resolved sample_config half_resolved_display
     empty_gtk blank_ui).2.2.2.2.2.1 0 (by decide)⟩

/-- C4, at the failing input: the display reports two monitors and the lookup
at index 1 yields none.  One monitor is resolved, but `monitor_count` is 2 and
the array has two slots, the second of which was never written. -/
theorem setup_background_windows_unset_slot :
    resolved_count half_resolved_display = 1 ∧
    (setup_background_windows sample_config half_resolved_display
      (empty_gtk, blank_ui)).2.monitor_count = 2 ∧
    (setup_background_windows sample_config half_resolved_display
      (empty_gtk, blank_ui)).2.background_windows = [some 0, none] ∧
    (setup_background_windows sample_config half_resolved_display
      (empty_gtk, blank_ui)).1.windows.length = 1 := by
  decide

/-! ## Lemmas: stylesheet -/

set_option maxRecDepth 100000 in
theorem css_text_fill {RGBA : Type} (gdk_rgba_to_string : RGBA → String)
    (config : Config RGBA) :
    css_text gdk_rgba_to_string config =
      css_head ++ fill ((css_arguments gdk_rgba_to_string config).zip css_literals) := by
  rfl

set_option maxRecDepth 100000 in
theorem format_literals_css : format_literals css_format.data = css_head :: css_literals := by
  rfl

/-- C5.  For a configuration and the two settings of `show_input_cursor`, all
other fields being the same: the arguments of the stylesheet are those of the
original configuration with slot 13 (the `caret-color` slot) replaced; that
slot holds the serialised password text colour when the flag is true and the
serialised password-background colour when it is false; and the stylesheet
text is a fixed text, then `#password {`, `color:` and the password colour,
`caret-color:` and the colour chosen by the flag, then a fixed text, both
fixed texts being the same for the two settings. -/
theorem caret_color_follows_show_input_cursor {RGBA : Type}
    (gdk_rgba_to_string : RGBA → String) (config : Config RGBA) :
    (∀ b : Bool,
      css_arguments gdk_rgba_to_string { config with show_input_cursor := b } =
        (css_arguments gdk_rgba_to_string config).set 13
          (gdk_rgba_to_string
            (if b then config.password_color else config.password_background_color)).data) ∧
    (css_arguments gdk_rgba_to_string { config with show_input_cursor := true })[13]? =
      some (gdk_rgba_to_string config.password_color).data ∧
    (css_arguments gdk_rgba_to_string { config with show_input_cursor := false })[13]? =
      some (gdk_rgba_to_string config.password_background_color).data ∧
    ∃ before after : List Char, ∀ b : Bool,
      css_text gdk_rgba_to_string { config with show_input_cursor := b } =
        before ++ (";\n\x7d\n#password \x7b\ncolor: ".data ++
          ((gdk_rgba_to_string config.password_color).data ++ (";\ncaret-color: ".data ++
            ((gdk_rgba_to_string
                (if b then config.password_color else config.password_background_color)).data ++
              (";\nbackground-color: ".data ++ after))))) := by
  refine ⟨fun b => rfl, rfl, rfl, ?_⟩
  refine ⟨css_head ++
      (fill (((css_arguments gdk_rgba_to_string config).zip css_literals).take 11) ++
        (gdk_rgba_to_string config.window_color).data),
    fill (((css_arguments gdk_rgba_to_string config).zip css_literals).drop 14), ?_⟩
  intro b
  rw [css_text_fill]
  simp only [css_arguments, css_literals, List.zip_cons_cons, List.zip_nil_right, List.take,
    List.drop, fill, List.append_assoc, List.append_nil]

theorem starts_with_append (pattern rest : List Char) :
    starts_with pattern (pattern ++ rest) = true := by
  induction pattern with
  | nil => rfl
  | cons p ps ih => simp [starts_with, ih]

theorem find_split_here (pattern rest : List Char) :
    find_split pattern (pattern ++ rest) = some ([], rest) := by
  cases hp : pattern ++ rest with
  | nil =>
    have h1 : pattern = [] := (List.append_eq_nil.mp hp).1
    have h2 : rest = [] := (List.append_eq_nil.mp hp).2
    subst h1 h2
    rfl
  | cons c cs =>
    have hs : starts_with pattern (c :: cs) = true := by
      rw [← hp]; exact starts_with_append pattern rest
    have hd : (c :: cs).drop pattern.length = rest := by
      rw [← hp]; simp
    simp only [find_split, hs, if_true, hd]

/-- A value that does not contain the first character of the literal ends
where the literal first occurs. -/
theorem find_split_of_not_mem (c : Char) (literal value rest : List Char)
    (h : c ∉ value) :
    find_split (c :: literal) (value ++ ((c :: literal) ++ rest)) = some (value, rest) := by
  induction value with
  | nil => exact find_split_here (c :: literal) rest
  | cons a value ih =>
    have hne : c ≠ a := fun e => h (by simp [e])
    have hrest : c ∉ value := fun e => h (by simp [e])
    have hs : starts_with (c :: literal) (a :: (value ++ ((c :: literal) ++ rest))) = false := by
      simp [starts_with, hne]
    simp only [List.cons_append] at ih hs ⊢
    simp only [find_split, hs, ih hrest]
    simp

/-- A value that does not contain the second character of the literal, which
differs from its first, ends where the literal first occurs. -/
theorem find_split_of_not_mem_second (c d : Char) (literal value rest : List Char)
    (hcd : c ≠ d) (h : d ∉ value) :
    find_split (c :: d :: literal) (value ++ ((c :: d :: literal) ++ rest)) =
      some (value, rest) := by
  induction value with
  | nil => exact find_split_here (c :: d :: literal) rest
  | cons a value ih =>
    have hrest : d ∉ value := fun e => h (by simp [e])
    have hs : starts_with (c :: d :: literal)
        (a :: (value ++ ((c :: d :: literal) ++ rest))) = false := by
      cases value with
      | nil => simp [starts_with, hcd.symm]
      | cons b value =>
        have hdb : d ≠ b := fun e => h (by simp [e])
        simp [starts_with, hdb]
    simp only [List.cons_append] at ih hs ⊢
    simp only [find_split, hs, ih hrest]
    simp

/-- Reading back a text made of values each followed by its literal recovers
the values, when every value ends where its literal first occurs. -/
theorem scan_literals_fill (slots : List (List Char × List Char))
    (h : ∀ slot ∈ slots, ∀ rest : List Char,
      find_split slot.2 (slot.1 ++ (slot.2 ++ rest)) = some (slot.1, rest)) :
    scan_literals (slots.map Prod.snd) (fill slots) = some (slots.map Prod.fst) := by
  induction slots with
  | nil => simp [scan_literals, fill]
  | cons slot slots ih =>
    obtain ⟨value, literal⟩ := slot
    have hfirst := h (value, literal) (by simp) (fill slots)
    have hrest := ih (fun s hs => h s (by simp [hs]))
    simp only [List.map_cons, fill, scan_literals]
    simp only at hfirst
    rw [hfirst]
    simp only [hrest]

/-- Every slot of the stylesheet ends where its literal first occurs, when no
substituted value contains `;` and the image path contains no `)`. -/
theorem css_slots_delimited {RGBA : Type} (gdk_rgba_to_string : RGBA → String)
    (config : Config RGBA)
    (hsemi : ∀ value ∈ css_arguments gdk_rgba_to_string config, ';' ∉ value)
    (hparen : ')' ∉ config.background_image.data) :
    ∀ slot ∈ (css_arguments gdk_rgba_to_string config).zip css_literals,
      ∀ rest : List Char,
        find_split slot.2 (slot.1 ++ (slot.2 ++ rest)) = some (slot.1, rest) := by
  intro slot hslot rest
  have hmem : slot.1 ∈ css_arguments gdk_rgba_to_string config := (List.of_mem_zip hslot).1
  have hs : ';' ∉ slot.1 := hsemi slot.1 hmem
  simp only [css_arguments, css_literals, List.zip_cons_cons, List.zip_nil_right,
    List.mem_cons, List.mem_singleton, List.not_mem_nil, or_false] at hslot
  rcases hslot with h | h | h | h | h | h | h | h | h | h | h | h | h | h | h | h | h
  all_goals subst h
  case inr.inr.inr.inr.inr.inr.inr.inl =>
    exact find_split_of_not_mem ')' _ _ rest hparen
  case inr.inr.inr.inr.inr.inr.inr.inr.inl =>
    exact find_split_of_not_mem_second ')' ';' _ _ rest (by decide) hs
  all_goals exact find_split_of_not_mem ';' _ _ rest hs

/-- C6, amended.  For every configuration the stylesheet text is the head of
the template followed by the seventeen substituted values, each followed by
its literal of the template: text fields verbatim and colour fields
serialised, in the order font, font size, font weight, font style (`*`), text
colour (`label`), error colour (`label#error`), background colour
(`#background`), image path and background colour again
(`#background.with-image`), border width and border colour
(`#main, #password`), window colour (`#main`), password colour, caret colour,
password-background colour, password border width and password border colour
(`#password`).  This part holds without any condition on the values.  When,
in addition, no substituted value contains `;` and the image path contains no
`)`, reading the slots back out of the text recovers exactly these seventeen
values. -/
theorem stylesheet_slots_read_back {RGBA : Type} (gdk_rgba_to_string : RGBA → String)
    (config : Config RGBA) :
    css_text gdk_rgba_to_string config =
      css_head ++ fill (List.zip
        [ config.font.data
        , config.font_size.data
        , config.font_weight.data
        , config.font_style.data
        , (gdk_rgba_to_string config.text_color).data
        , (gdk_rgba_to_string config.error_color).data
        , (gdk_rgba_to_string config.background_color).data
        , config.background_image.data
        , (gdk_rgba_to_string config.background_color).data
        , config.border_width.data
        , (gdk_rgba_to_string config.border_color).data
        , (gdk_rgba_to_string config.window_color).data
        , (gdk_rgba_to_string config.password_color).data
        , (gdk_rgba_to_string
            (if config.show_input_cursor then config.password_color
             else config.password_background_color)).data
        , (gdk_rgba_to_string config.password_background_color).data
        , config.password_border_width.data
        , (gdk_rgba_to_string config.password_border_color).data ]
        css_literals) ∧
    ((∀ value ∈ css_arguments gdk_rgba_to_string config, ';' ∉ value) →
      ')' ∉ config.background_image.data →
      scan_slots css_format.data (css_text gdk_rgba_to_string config) =
        some (css_arguments gdk_rgba_to_string config)) := by
  refine ⟨css_text_fill gdk_rgba_to_string config, ?_⟩
  intro hsemi hparen
  have hscan := scan_literals_fill
    ((css_arguments gdk_rgba_to_string config).zip css_literals)
    (css_slots_delimited gdk_rgba_to_string config hsemi hparen)
  have hsnd : ((css_arguments gdk_rgba_to_string config).zip css_literals).map Prod.snd =
      css_literals := rfl
  have hfst : ((css_arguments gdk_rgba_to_string config).zip css_literals).map Prod.fst =
      css_arguments gdk_rgba_to_string config := rfl
  rw [hsnd, hfst] at hscan
  unfold scan_slots
  rw [format_literals_css, css_text_fill]
  simp only [starts_with_append, if_true, List.drop_left]
  exact hscan

/-- Witness for C6, amended: the sample configuration, whose values contain
no `;` and whose image path contains no `)`; its seventeen values are read
back.  The unconditional part is also applied to a configuration whose font
value contains `;`. -/
theorem stylesheet_slots_read_back_witness :
    ((∀ value ∈ css_arguments sample_rgba_to_string sample_config, ';' ∉ value) ∧
      ')' ∉ sample_config.background_image.data) ∧
    scan_slots css_format.data (css_text sample_rgba_to_string sample_config) =
      some (css_arguments sample_rgba_to_string sample_config) ∧
    css_text sample_rgba_to_string injected_config_a =
      css_head ++ fill (List.zip (css_arguments sample_rgba_to_string injected_config_a)
        css_literals) :=
  ⟨⟨by decide, by decide⟩,
   (stylesheet_slots_read_back sample_rgba_to_string sample_config).2 (by decide) (by decide),
   (stylesheet_slots_read_back sample_rgba_to_string injected_config_a).1⟩

set_option maxRecDepth 100000 in
/-- C6 as stated fails.  In the stylesheet of the sample configuration, whose
values all differ, the background colour occurs twice and so does the
password colour, so not every value occurs exactly once; and two
configurations with different `font` and `font_size` have the same
stylesheet text, so no reader recovers the values of every configuration. -/
theorem values_not_exactly_once_nor_recoverable :
    count_occurrences "rgb(3,3,3)".data (css_text sample_rgba_to_string sample_config) = 2 ∧
    count_occurrences "rgb(6,6,6)".data (css_text sample_rgba_to_string sample_config) = 2 ∧
    ¬ every_value_exactly_once sample_rgba_to_string sample_config ∧
    ¬ values_recoverable sample_rgba_to_string := by
  have hbg : count_occurrences "rgb(3,3,3)".data (css_text sample_rgba_to_string sample_config) = 2 := by decide
  have hpw : count_occurrences "rgb(6,6,6)".data (css_text sample_rgba_to_string sample_config) = 2 := by decide
  refine ⟨hbg, hpw, ?_, ?_⟩
  · intro h
    have h1 := h "rgb(3,3,3)".data (by decide)
    rw [hbg] at h1
    exact absurd h1 (by decide)
  · rintro ⟨reader, h⟩
    have ha := h injected_config_a
    have hb := h injected_config_b
    have htext : css_text sample_rgba_to_string injected_config_a =
        css_text sample_rgba_to_string injected_config_b := by decide
    rw [htext, hb] at ha
    exact absurd ha (by decide)

/-! ## Theorems: installing the stylesheet -/

/-- C9.  In `attach_config_colors_to_screen`: when the formatting step
reports an error (a negative length), the toolkit state, and with it the list
of style providers of the screen, is returned unchanged; when it succeeds, the
only change is that one provider, loaded with the stylesheet text, is added to
the screen's providers at priority `GTK_STYLE_PROVIDER_PRIORITY_USER + 1`,
that is 801.  Both outcomes occur: the step fails when the buffer cannot be
allocated and succeeds when it can and the length fits an `int`.  The function
returns a state in either case. -/
theorem attach_config_colors_installs_or_leaves {RGBA : Type}
    (gdk_rgba_to_string : RGBA → String) (alloc_ok : Bool) (config : Config RGBA)
    (gtk : Gtk) :
    (alloc_ok = false →
      (asprintf alloc_ok css_format.data (css_arguments gdk_rgba_to_string config)).1 < 0) ∧
    (alloc_ok = true →
      (String.mk (css_text gdk_rgba_to_string config)).utf8ByteSize ≤ INT_MAX →
      0 ≤ (asprintf alloc_ok css_format.data (css_arguments gdk_rgba_to_string config)).1) ∧
    ((asprintf alloc_ok css_format.data (css_arguments gdk_rgba_to_string config)).1 < 0 →
      attach_config_colors_to_screen gdk_rgba_to_string alloc_ok config gtk = gtk) ∧
    (0 ≤ (asprintf alloc_ok css_format.data (css_arguments gdk_rgba_to_string config)).1 →
      attach_config_colors_to_screen gdk_rgba_to_string alloc_ok config gtk =
        { gtk with screen_providers := gtk.screen_providers ++
            [({ data := some (css_text gdk_rgba_to_string config) },
              GTK_STYLE_PROVIDER_PRIORITY_USER + 1)] }) ∧
    GTK_STYLE_PROVIDER_PRIORITY_USER + 1 = 801 := by
  refine ⟨?_, ?_, ?_, ?_, rfl⟩
  · intro h
    simp [asprintf, h]
  · intro h hlen
    have hlen2 : (String.mk (format_s css_format.data
        (css_arguments gdk_rgba_to_string config))).utf8ByteSize ≤ INT_MAX := hlen
    subst h
    have hc : (true && decide ((String.mk (format_s css_format.data
        (css_arguments gdk_rgba_to_string config))).utf8ByteSize ≤ INT_MAX)) = true := by
      rw [Bool.true_and]
      exact decide_eq_true hlen2
    unfold asprintf
    simp only [hc, if_true]
    exact Int.ofNat_zero_le _
  · intro h
    unfold attach_config_colors_to_screen
    have : ¬ (asprintf alloc_ok css_format.data
        (css_arguments gdk_rgba_to_string config)).1 ≥ 0 := by omega
    simp only [this, if_false]
  · intro h
    unfold attach_config_colors_to_screen
    have hge : (asprintf alloc_ok css_format.data
        (css_arguments gdk_rgba_to_string config)).1 ≥ 0 := h
    simp only [hge, if_true]
    have htext : (asprintf alloc_ok css_format.data
        (css_arguments gdk_rgba_to_string config)).2 =
          some (css_text gdk_rgba_to_string config) := by
      unfold asprintf at h ⊢
      simp only at h ⊢
      split
      · rfl
      · rename_i hc
        simp only [hc] at h
        simp at h
    simp only [gtk_css_provider_load_from_data, gtk_style_context_add_provider_for_screen,
      htext]

set_option maxRecDepth 100000 in
/-- Witness for C9: for the sample configuration, a failed allocation leaves
the toolkit state as it was, and a successful one installs one provider with
the stylesheet text at priority 801. -/
theorem attach_config_colors_installs_or_leaves_witness :
    attach_config_colors_to_screen sample_rgba_to_string false sample_config empty_gtk =
      empty_gtk ∧
    attach_config_colors_to_screen sample_rgba_to_string true sample_config empty_gtk =
      { empty_gtk with screen_providers := empty_gtk.screen_providers ++
          [({ data := some (css_text sample_rgba_to_string sample_config) },
            GTK_STYLE_PROVIDER_PRIORITY_USER + 1)] } :=
  ⟨(attach_config_colors_installs_or_leaves sample_rgba_to_string false sample_config
      empty_gtk).2.2.1
      ((attach_config_colors_installs_or_leaves sample_rgba_to_string false sample_config
        empty_gtk).1 rfl),
   (attach_config_colors_installs_or_leaves sample_rgba_to_string true sample_config
      empty_gtk).2.2.2.1
      ((attach_config_colors_installs_or_leaves sample_rgba_to_string true sample_config
        empty_gtk).2.1 rfl (by decide))⟩

/-! ## Theorems: main window -/

/-- C2.  When the display has a primary monitor and `main_window` is a window
whose measured size (the size `gtk_window_get_size` reports when the handler
runs) is `(w, h)`, `place_main_window` moves the window to
`(x + width/2 - w/2, y + height/2 - h/2)`, where `(x, y, width, height)` is the
geometry of the primary monitor and `/` is division truncating toward zero;
nothing else about the window changes, the size request plays no part, and
the other windows are left as they are. -/
theorem place_main_window_centres (display : GdkDisplay) (stack : GdkRectangle) (gtk : Gtk)
    (main_window : Nat) (monitor : GdkMonitor) (window : GtkWindow)
    (hprimary : display.primary_monitor = some monitor)
    (hwindow : gtk.windows[main_window]? = some window) :
    (place_main_window display stack gtk main_window).windows[main_window]? =
      some { window with position :=
        (monitor.geometry.x + Int.tdiv monitor.geometry.width 2 - Int.tdiv window.size.1 2,
         monitor.geometry.y + Int.tdiv monitor.geometry.height 2 - Int.tdiv window.size.2 2) } ∧
    ∀ other : Nat, other ≠ main_window →
      (place_main_window display stack gtk main_window).windows[other]? =
        gtk.windows[other]? := by
  constructor
  · simp [place_main_window, gdk_display_get_primary_monitor, gdk_monitor_get_geometry,
      gtk_window_get_size, gtk_window_move, update_window, hprimary, hwindow]
  · intro other hne
    simp [place_main_window, gtk_window_move, update_window,
      List.getElem?_modify_ne _ _ (Ne.symm hne)]

/-- Witness for C2: a 1920x1080 primary monitor at the origin and a main
window with size request 200x100 and measured size 260x130.  The window is
moved to (830, 475), which is (-30, -15) away from the position the size
request would give. -/
theorem place_main_window_centres_witness :
    (two_monitor_display.primary_monitor = some primary_1920 ∧
      measured_gtk.windows[0]? = some measured_window) ∧
    ((place_main_window two_monitor_display ⟨0, 0, 0, 0⟩ measured_gtk 0).windows[0]? =
      some { measured_window with position :=
        (primary_1920.geometry.x + Int.tdiv primary_1920.geometry.width 2
            - Int.tdiv measured_window.size.1 2,
         primary_1920.geometry.y + Int.tdiv primary_1920.geometry.height 2
            - Int.tdiv measured_window.size.2 2) }) ∧
    (primary_1920.geometry.x + Int.tdiv primary_1920.geometry.width 2
        - Int.tdiv measured_window.size.1 2,
      primary_1920.geometry.y + Int.tdiv primary_1920.geometry.height 2
        - Int.tdiv measured_window.size.2 2) = (830, 475) ∧
    ((primary_1920.geometry.x + Int.tdiv primary_1920.geometry.width 2
        - Int.tdiv measured_window.size.1 2)
      - (primary_1920.geometry.x + Int.tdiv primary_1920.geometry.width 2
        - Int.tdiv measured_window.size_request.1 2),
     (primary_1920.geometry.y + Int.tdiv primary_1920.geometry.height 2
        - Int.tdiv measured_window.size.2 2)
      - (primary_1920.geometry.y + Int.tdiv primary_1920.geometry.height 2
        - Int.tdiv measured_window.size_request.2 2)) = (-30, -15) :=
  ⟨⟨rfl, rfl⟩,
   (place_main_window_centres two_monitor_display ⟨0, 0, 0, 0⟩ measured_gtk 0 primary_1920
     measured_window rfl rfl).1,
   by decide, by decide⟩

/-- C8, at the failing input: a display with one monitor, at (1920, 0) and
1280x1024, and no primary monitor.  The position `place_main_window` gives the
main window is computed from the uninitialised rectangle: with a stack of
zeros it is (-130, -65), with a stack holding (7, 9, 100, 50) it is
(-73, -31); the centre of the first enumerated monitor would give
(2430, 447). -/
theorem place_main_window_without_primary :
    no_primary_display.primary_monitor = none ∧
    no_primary_display.get_monitor 0 = some secondary_1280 ∧
    (place_main_window no_primary_display ⟨0, 0, 0, 0⟩ measured_gtk 0).windows[0]? =
      some { measured_window with position := (-130, -65) } ∧
    (place_main_window no_primary_display ⟨7, 9, 100, 50⟩ measured_gtk 0).windows[0]? =
      some { measured_window with position := (-73, -31) } ∧
    (secondary_1280.geometry.x + Int.tdiv secondary_1280.geometry.width 2
        - Int.tdiv measured_window.size.1 2,
      secondary_1280.geometry.y + Int.tdiv secondary_1280.geometry.height 2
        - Int.tdiv measured_window.size.2 2) = (2430, 447) := by
  decide

/-! ## Theorems: layout container -/

/-- C10, amended.  For every configuration, after `setup_main_window` and
`create_and_attach_layout_container` the layout grid has row spacing and
column spacing both equal to 5, whatever the configuration; the grid is the
child of the main window, which was created without one; and
`layout_spacing` is the border width of the main window. -/
theorem layout_container_spacing_fixed {RGBA : Type} (config : Config RGBA) (gtk : Gtk)
    (ui : UI) :
    (create_and_attach_layout_container (setup_main_window config (gtk, ui))).2.main_window =
      some gtk.windows.length ∧
    (create_and_attach_layout_container (setup_main_window config (gtk, ui))).2.layout_container =
      some gtk.grids.length ∧
    (create_and_attach_layout_container (setup_main_window config (gtk, ui))).1.grids =
      gtk.grids ++ [{ column_spacing := 5, row_spacing := 5 }] ∧
    ∃ window : GtkWindow,
      (create_and_attach_layout_container
        (setup_main_window config (gtk, ui))).1.windows[gtk.windows.length]? = some window ∧
      window.child = some gtk.grids.length ∧
      window.border_width = config.layout_spacing ∧
      window.name = "main" := by
  simp [create_and_attach_layout_container, setup_main_window, gtk_window_new, gtk_grid_new,
    gtk_grid_set_column_spacing, gtk_grid_set_row_spacing, gtk_container_add,
    gtk_container_set_border_width, gtk_widget_set_name, g_signal_connect, update_window,
    modify_append_length, fresh_window]

/-- C10 as stated fails: with `layout_spacing = 10` the grid built has row
spacing 5 and column spacing 5, not 10. -/
theorem layout_container_spacing_not_configured :
    sample_config.layout_spacing = 10 ∧
    (create_and_attach_layout_container
      (setup_main_window sample_config (empty_gtk, blank_ui))).2.layout_container = some 0 ∧
    (create_and_attach_layout_container
      (setup_main_window sample_config (empty_gtk, blank_ui))).1.grids[0]? =
        some { column_spacing := 5, row_spacing := 5 } ∧
    ¬ ∃ grid : GtkGrid,
      (create_and_attach_layout_container
        (setup_main_window sample_config (empty_gtk, blank_ui))).1.grids[0]? = some grid ∧
      grid.row_spacing = sample_config.layout_spacing ∧
      grid.column_spacing = sample_config.layout_spacing := by
  refine ⟨rfl, by decide, by decide, ?_⟩
  rintro ⟨grid, hgrid, hrow, _⟩
  have h5 : (create_and_attach_layout_container
      (setup_main_window sample_config (empty_gtk, blank_ui))).1.grids[0]? =
        some { column_spacing := 5, row_spacing := 5 } := by decide
  rw [h5] at hgrid
  cases hgrid
  exact absurd hrow (by decide)

end JbrGreeter
